import Mathlib

/-!
Shallow embedding of src/native/alchemind_openai/src/lib.rs (Rustler NIF
bridge to the OpenAI API) and verification of its specification claims.

Modelling conventions:
- The network is an oracle parameter: each exported NIF takes the provider
  response (or a function from the built request to the response) as an
  explicit argument.
- Tokio runtime creation is modelled by an `Except String Unit` parameter
  (`.ok ()` means the runtime was created); the `Mutex::lock` result is the
  `LockOutcome` parameter.
- `complete_chat` calls `.lock().unwrap()`, so a poisoned lock makes it
  panic; panics are modelled by the `CallOutcome.panicked` constructor.
- Erlang terms appearing as option values are modelled by `HostTerm`:
  an atom (any atom acts as the absent marker), a string, or a float.
  The numeric payload of a float term is carried opaquely as an `Int`
  since the bridge never computes with it, and the textual payload of a
  rustler decode error is abstracted to a fixed message shape.
- Option mappings (Rust `HashMap<String, Term>`) are association lists;
  key iteration order in diagnostic strings is the list order.
-/

/-- Host-supplied chat message, mirroring the rustler `Message` NIF struct
(`role: String`, `content: String`). -/
structure Message where
  role : String
  content : String
deriving DecidableEq, Repr

/-- The provider message variant chosen by `complete_chat` /
`process_completion_chunk` for one input message: system, assistant, or
user (the `_` arm of the Rust `match`). -/
inductive ProviderRole
  | system
  | assistant
  | user
deriving DecidableEq, Repr

/-- One translated provider chat message (variant plus content). -/
structure ProviderMessage where
  role : ProviderRole
  content : String
deriving DecidableEq, Repr

/-- Role selection of the Rust `match msg.role.as_str()`:
`"system"` and `"assistant"` pick their variants, every other string
falls through to the user arm. -/
def translateRole (role : String) : ProviderRole :=
  if role = "system" then ProviderRole.system
  else if role = "assistant" then ProviderRole.assistant
  else ProviderRole.user

/-- Translation of one host message into its provider message. The
`content(...)` builder calls cannot fail here because the content field is
always supplied, so the translation is total. -/
def translateMessage (m : Message) : ProviderMessage :=
  { role := translateRole m.role, content := m.content }

/-- The message-translation loop shared by `complete_chat` and
`process_completion_chunk`: each input message is translated and pushed
onto `chat_messages` in input order. -/
def translateMessages (ms : List Message) : List ProviderMessage :=
  ms.map translateMessage

/-- The chat completion request assembled by
`CreateChatCompletionRequestArgs`: model, translated messages, and the
streaming flag. -/
structure ChatRequest where
  model : String
  messages : List ProviderMessage
  stream : Bool
deriving DecidableEq, Repr

/-- Request assembly (`.model(model).messages(chat_messages)` with an
optional `.stream(true)`); total because the model field is always set. -/
def buildChatRequest (ms : List Message) (model : String) (stream : Bool) : ChatRequest :=
  { model := model, messages := translateMessages ms, stream := stream }

/-- Result of `client_resource.client.lock()`: acquired, or poisoned with
the display text of the `PoisonError`. -/
inductive LockOutcome
  | acquired
  | poisoned (e : String)
deriving DecidableEq, Repr

/-- Observable outcome of one NIF call: a success value, a classified
error term (`rustler::Error::Term`), or a Rust panic (e.g. `.unwrap()` on
a poisoned mutex). -/
inductive CallOutcome (α : Type)
  | ok (a : α)
  | error (msg : String)
  | panicked
deriving DecidableEq, Repr

/-- Whether a call outcome is a classified error term reported to the
caller (as opposed to a success or a panic). -/
def isClassifiedError {α : Type} : CallOutcome α → Bool
  | CallOutcome.error _ => true
  | _ => false

/-- One choice of a chat completion response; `content` models
`choice.message.content : Option<String>`. -/
structure ChatChoice where
  content : Option String
deriving DecidableEq, Repr

/-- A chat completion response body (`completion.choices`). -/
structure ChatCompletion where
  choices : List ChatChoice
deriving DecidableEq, Repr

/-- The `complete_chat` NIF. Parameters beyond the Rust signature:
`rt` is the tokio runtime creation result, `lock` the mutex lock result,
and `provider` the network oracle mapping the built request to the
provider response (`Err` carries the API error display text).
Mirrors lib.rs lines 44-109: runtime, then `.lock().unwrap()` (panics when
poisoned), then translation and request build, then the response match:
first choice's content, empty string when the content is absent,
`"No completion choices returned"` when there are no choices. -/
def complete_chat (rt : Except String Unit) (lock : LockOutcome)
    (messages : List Message) (model : String)
    (provider : ChatRequest → Except String ChatCompletion) : CallOutcome String :=
  match rt with
  | Except.error _ => CallOutcome.error "Failed to create Tokio runtime"
  | Except.ok _ =>
    match lock with
    | LockOutcome.poisoned _ => CallOutcome.panicked
    | LockOutcome.acquired =>
      match provider (buildChatRequest messages model false) with
      | Except.error e => CallOutcome.error ("API request failed: " ++ e)
      | Except.ok completion =>
        match completion.choices with
        | choice :: _ =>
          match choice.content with
          | some content => CallOutcome.ok content
          | none => CallOutcome.ok ""
        | [] => CallOutcome.error "No completion choices returned"

/-- One choice of a streaming response frame: `delta_content` models
`choice.delta.content : Option<String>`, `finish_reason` models
`choice.finish_reason : Option<...>` (only its presence is inspected). -/
structure StreamChoice where
  delta_content : Option String
  finish_reason : Option String
deriving DecidableEq, Repr

/-- One streaming response frame (`response.choices`). -/
structure StreamFrame where
  choices : List StreamChoice
deriving DecidableEq, Repr

/-- The content fragments one frame contributes, in choice order
(the inner `for choice in response.choices` pushing
`choice.delta.content` when present). -/
def frameContents (f : StreamFrame) : List String :=
  f.choices.filterMap (fun c => c.delta_content)

/-- Whether some choice of the frame carries a `finish_reason`
(the inner loop setting `is_done = true`). -/
def frameFinished (f : StreamFrame) : Bool :=
  f.choices.any (fun c => c.finish_reason.isSome)

/-- The bounded polling loop `for _ in 0..10` of
`process_completion_chunk`. The open stream is the list of frames it
would yield (`Err` a transport error, end of list the `None` exhaustion);
`chunks` and `is_done` are the loop accumulators. A transport error
aborts the whole async block with `"Stream error: ..."`; stream
exhaustion sets `is_done` and breaks; reaching the cap returns the
accumulators unchanged. -/
def pollLoop : Nat → List (Except String StreamFrame) → List String → Bool →
    Except String (List String × Bool)
  | 0, _, chunks, is_done => Except.ok (chunks, is_done)
  | _ + 1, [], chunks, _ => Except.ok (chunks, true)
  | _ + 1, (Except.error e) :: _, _, _ => Except.error ("Stream error: " ++ e)
  | n + 1, (Except.ok f) :: rest, chunks, is_done =>
    pollLoop n rest (chunks ++ frameContents f) (is_done || frameFinished f)

/-- A message `env.send` to the caller process: `(stream_chunk, text, ref)`,
`(stream_done, ref)`, or `(stream_error, msg, ref)`. `ref` is the
caller-supplied correlation term. -/
inductive Notification
  | chunk (text : String) (ref : String)
  | done (ref : String)
  | error (msg : String) (ref : String)
deriving DecidableEq, Repr

/-- Whether a notification is terminal (`stream_done` or `stream_error`,
as opposed to `stream_chunk`). -/
def isTerminal : Notification → Bool
  | Notification.chunk _ _ => false
  | _ => true

/-- Observable behaviour of one `process_completion_chunk` call: the
notifications sent to `stream_pid` in order, and the NIF return value
(`Ok(atoms::ok)` modelled as `.ok ()`, an early `Err(Error::Term(msg))`
as `.error msg`). -/
structure StreamCallResult where
  sent : List Notification
  ret : Except String Unit
deriving Repr

/-- The `process_completion_chunk` NIF (lib.rs lines 116-218). `rt` and
`lock` as in `complete_chat` (here the lock error is reported, not
unwrapped); `provider` maps the built streaming request to the stream
open result: `Err` when `create_stream` fails, otherwise the frame list.
After the polling loop, collected chunks are sent in order, then
`stream_done` only if `is_done`; a failure of the async block sends a
single `stream_error`; in both cases the NIF itself returns `ok`. -/
def process_completion_chunk (rt : Except String Unit) (lock : LockOutcome)
    (messages : List Message) (model : String) (ref : String)
    (provider : ChatRequest → Except String (List (Except String StreamFrame))) :
    StreamCallResult :=
  match rt with
  | Except.error e => ⟨[], Except.error ("Failed to create Tokio runtime: " ++ e)⟩
  | Except.ok _ =>
    match lock with
    | LockOutcome.poisoned e => ⟨[], Except.error ("Failed to lock client: " ++ e)⟩
    | LockOutcome.acquired =>
      match provider (buildChatRequest messages model true) with
      | Except.error e =>
        ⟨[Notification.error ("Failed to create stream: " ++ e) ref], Except.ok ()⟩
      | Except.ok frames =>
        match pollLoop 10 frames [] false with
        | Except.error msg => ⟨[Notification.error msg ref], Except.ok ()⟩
        | Except.ok (chunks, is_done) =>
          ⟨chunks.map (fun c => Notification.chunk c ref) ++
            (if is_done then [Notification.done ref] else []), Except.ok ()⟩

/-- An Erlang term supplied as an option value: an atom (the code treats
any atom, via `term.is_atom()`, as the absent marker), a string (decodes
as `String`), or a float (decodes as `f32`; the payload is opaque to the
bridge and carried as an `Int`). -/
inductive HostTerm
  | atom (name : String)
  | str (s : String)
  | flt (payload : Int)
deriving DecidableEq, Repr

/-- An option mapping: association list modelling `HashMap<String, Term>`
(`opts.get(key)` is first-match lookup; keys are unique in the real map,
so first-match agrees with it). -/
abbrev Opts := List (String × HostTerm)

/-- `opts.get(key)` on the option mapping. -/
def getOpt (key : String) : Opts → Option HostTerm
  | [] => none
  | (k, v) :: rest => if k = key then some v else getOpt key rest

/-- The key list embedded in diagnostic strings
(`opts.keys().collect::<Vec<_>>()` rendered by `{:?}`); iteration order
is the association-list order. -/
def keysRepr (opts : Opts) : String :=
  toString (opts.map (fun kv => kv.1))

/-- The shared shape of one required-string option extraction
(`model` / `response_format` as strings): a present atom or a missing
key gives the default, a string is taken verbatim, a float fails to
decode as `String` and aborts with the error text `errMsg`. -/
def decodeStrField (key : String) (deflt : String) (errMsg : String) (opts : Opts) :
    Except String String :=
  match getOpt key opts with
  | some (HostTerm.atom _) => Except.ok deflt
  | some (HostTerm.str s) => Except.ok s
  | some (HostTerm.flt _) => Except.error errMsg
  | none => Except.ok deflt

/-- The shared shape of one optional-string option extraction
(`language` / `prompt`): atom or missing key gives `none`, a string gives
`some`, a float fails to decode. -/
def decodeOptStrField (key : String) (errMsg : String) (opts : Opts) :
    Except String (Option String) :=
  match getOpt key opts with
  | some (HostTerm.atom _) => Except.ok none
  | some (HostTerm.str s) => Except.ok (some s)
  | some (HostTerm.flt _) => Except.error errMsg
  | none => Except.ok none

/-- The shared shape of one optional-float option extraction
(`temperature` / `speed`): atom or missing key gives `none`, a float
gives `some`, a string fails to decode as `f32`. -/
def decodeFltField (key : String) (errMsg : String) (opts : Opts) :
    Except String (Option Int) :=
  match getOpt key opts with
  | some (HostTerm.atom _) => Except.ok none
  | some (HostTerm.str _) => Except.error errMsg
  | some (HostTerm.flt x) => Except.ok (some x)
  | none => Except.ok none

/-- The transcription response-format enumeration
(`AudioResponseFormat`). -/
inductive AudioResponseFormat
  | json
  | srt
  | verbose_json
  | vtt
  | text
deriving DecidableEq, Repr

/-- The `match response_format.as_str()` mapping of `transcribe_audio`:
`json`/`srt`/`verbose_json`/`vtt` pick their variants, anything else
falls back to `Text`. -/
def parseAudioResponseFormat (s : String) : AudioResponseFormat :=
  if s = "json" then AudioResponseFormat.json
  else if s = "srt" then AudioResponseFormat.srt
  else if s = "verbose_json" then AudioResponseFormat.verbose_json
  else if s = "vtt" then AudioResponseFormat.vtt
  else AudioResponseFormat.text

/-- The decoded transcription parameters assembled into the
`CreateTranscriptionRequestArgs` builder. -/
structure TranscribeParams where
  model : String
  language : Option String
  prompt : Option String
  response_format : AudioResponseFormat
  temperature : Option Int
deriving DecidableEq, Repr

/-- Option decoding of `transcribe_audio` (lib.rs lines 241-336), field by
field in source order with early return on the first decode failure. The
textual payload of the rustler decode error (`{:?}` of the error) is
abstracted away; `transcribe_audio` error texts carry no debug suffix. -/
def decodeTranscribeOpts (opts : Opts) : Except String TranscribeParams := do
  let model ← decodeStrField "model" "whisper-1" "Failed to decode model" opts
  let language ← decodeOptStrField "language" "Failed to decode language" opts
  let prompt ← decodeOptStrField "prompt" "Failed to decode prompt" opts
  let response_format ← decodeStrField "response_format" "text"
    "Failed to decode response_format" opts
  let temperature ← decodeFltField "temperature" "Failed to decode temperature" opts
  Except.ok ⟨model, language, prompt, parseAudioResponseFormat response_format, temperature⟩

/-- The `debug_info` string of `transcribe_audio`
(`"Audio binary length: {}, Opts: {:?}"`). -/
def transcribeDebugInfo (audio_binary : List Nat) (opts : Opts) : String :=
  "Audio binary length: " ++ toString audio_binary.length ++ ", Opts: " ++ keysRepr opts

/-- The `transcribe_audio` NIF (lib.rs lines 221-356). `rt`, `lock` as
before (the lock error is reported); `audio_binary` is the byte buffer
(only its length is inspected); `resp` is the provider transcription
oracle carrying the transcript text. The time-based upload file name and
the request builder are abstracted: given decoded parameters they cannot
fail and do not affect the returned value. -/
def transcribe_audio (rt : Except String Unit) (lock : LockOutcome)
    (audio_binary : List Nat) (opts : Opts)
    (resp : Except String String) : CallOutcome String :=
  match rt with
  | Except.error _ => CallOutcome.error "Failed to create Tokio runtime"
  | Except.ok _ =>
    match lock with
    | LockOutcome.poisoned e => CallOutcome.error ("Failed to lock client: " ++ e)
    | LockOutcome.acquired =>
      let debug_info := transcribeDebugInfo audio_binary opts
      if audio_binary.length < 10 then
        CallOutcome.error ("Audio binary too small. " ++ debug_info)
      else
        match decodeTranscribeOpts opts with
        | Except.error e => CallOutcome.error e
        | Except.ok _params =>
          match resp with
          | Except.ok transcription => CallOutcome.ok transcription
          | Except.error e => CallOutcome.error ("API transcription request failed: " ++ e)

/-- The speech model enumeration (`SpeechModel`). -/
inductive SpeechModel
  | tts1
  | tts1hd
deriving DecidableEq, Repr

/-- The `match model_str.as_str()` mapping of `text_to_speech`:
`"tts-1-hd"` picks `Tts1Hd`, anything else defaults to `Tts1`. -/
def parseSpeechModel (s : String) : SpeechModel :=
  if s = "tts-1-hd" then SpeechModel.tts1hd else SpeechModel.tts1

/-- The voice enumeration (`Voice`). -/
inductive Voice
  | alloy
  | echo
  | fable
  | onyx
  | nova
  | shimmer
deriving DecidableEq, Repr

/-- The `match voice_str.as_str()` mapping of `text_to_speech`:
`echo`/`fable`/`onyx`/`nova`/`shimmer` pick their variants, anything else
defaults to `Alloy`. -/
def parseVoice (s : String) : Voice :=
  if s = "echo" then Voice.echo
  else if s = "fable" then Voice.fable
  else if s = "onyx" then Voice.onyx
  else if s = "nova" then Voice.nova
  else if s = "shimmer" then Voice.shimmer
  else Voice.alloy

/-- The speech response-format enumeration (`SpeechResponseFormat`). -/
inductive SpeechResponseFormat
  | mp3
  | opus
  | aac
  | flac
deriving DecidableEq, Repr

/-- The `match format_str.as_str()` mapping of `text_to_speech`:
`opus`/`aac`/`flac` pick their variants, anything else defaults to
`Mp3`. -/
def parseSpeechFormat (s : String) : SpeechResponseFormat :=
  if s = "opus" then SpeechResponseFormat.opus
  else if s = "aac" then SpeechResponseFormat.aac
  else if s = "flac" then SpeechResponseFormat.flac
  else SpeechResponseFormat.mp3

/-- The decoded speech parameters assembled into the
`CreateSpeechRequestArgs` builder. -/
structure SpeechParams where
  model : SpeechModel
  voice : Voice
  response_format : SpeechResponseFormat
  speed : Option Int
deriving DecidableEq, Repr

/-- Option decoding of `text_to_speech` (lib.rs lines 374-445), field by
field in source order with early return on the first decode failure;
`debug` is the `debug_info` string appended to every decode error text
(`"Failed to decode ...: {:?}. {}"`). -/
def decodeSpeechOpts (debug : String) (opts : Opts) : Except String SpeechParams := do
  let model_str ← decodeStrField "model" "tts-1" ("Failed to decode model. " ++ debug) opts
  let voice_str ← decodeStrField "voice" "alloy" ("Failed to decode voice. " ++ debug) opts
  let format_str ← decodeStrField "response_format" "mp3"
    ("Failed to decode response_format. " ++ debug) opts
  let speed ← decodeFltField "speed" ("Failed to decode speed. " ++ debug) opts
  Except.ok ⟨parseSpeechModel model_str, parseVoice voice_str, parseSpeechFormat format_str, speed⟩

/-- The `text_to_speech` NIF (lib.rs lines 359-478), the native name of
the exposed `synthesize_speech` operation. `rt`, `lock` as before (the
lock error is reported); `input` is the text to synthesize (it only
feeds `debug_info` and the request); `resp` is the provider speech
oracle carrying the encoded audio bytes. -/
def text_to_speech (rt : Except String Unit) (lock : LockOutcome)
    (input : String) (opts : Opts)
    (resp : Except String (List Nat)) : CallOutcome (List Nat) :=
  match rt with
  | Except.error _ => CallOutcome.error "Failed to create Tokio runtime"
  | Except.ok _ =>
    match lock with
    | LockOutcome.poisoned e => CallOutcome.error ("Failed to lock client: " ++ e)
    | LockOutcome.acquired =>
      let debug_info :=
        "Input text length: " ++ toString input.utf8ByteSize ++ ", Opts: " ++ keysRepr opts
      match decodeSpeechOpts debug_info opts with
      | Except.error e => CallOutcome.error e
      | Except.ok _params =>
        match resp with
        | Except.ok bytes => CallOutcome.ok bytes
        | Except.error e =>
          CallOutcome.error ("API speech request failed: " ++ e ++ ". " ++ debug_info)

/-- The recognized option keys of `transcribe_audio`. -/
def transcribeOptionKeys : List String :=
  ["model", "language", "prompt", "response_format", "temperature"]

/-- The recognized option keys of `text_to_speech`. -/
def speechOptionKeys : List String :=
  ["model", "voice", "response_format", "speed"]

/-- C4: when the provider response of `complete_chat` contains zero
choices, the call fails with the error naming
"No completion choices returned" instead of returning empty content. -/
theorem complete_chat_empty_choices (ms : List Message) (model : String)
    (provider : ChatRequest → Except String ChatCompletion)
    (h : provider (buildChatRequest ms model false) = Except.ok ⟨[]⟩) :
    complete_chat (Except.ok ()) LockOutcome.acquired ms model provider =
      CallOutcome.error "No completion choices returned" := by
  simp [complete_chat, h]

/-- Witness for `complete_chat_empty_choices` at a concrete call. -/
theorem complete_chat_empty_choices_witness :
    complete_chat (Except.ok ()) LockOutcome.acquired [⟨"user", "hello"⟩] "gpt-4o"
      (fun _ => Except.ok ⟨[]⟩) = CallOutcome.error "No completion choices returned" :=
  complete_chat_empty_choices _ _ _ rfl

/-- C10: when the first choice of the `complete_chat` response is present
but carries no message content, the call succeeds with the empty string
rather than reporting an error. -/
theorem complete_chat_missing_content (ms : List Message) (model : String)
    (provider : ChatRequest → Except String ChatCompletion) (rest : List ChatChoice)
    (h : provider (buildChatRequest ms model false) = Except.ok ⟨⟨none⟩ :: rest⟩) :
    complete_chat (Except.ok ()) LockOutcome.acquired ms model provider =
      CallOutcome.ok "" := by
  simp [complete_chat, h]

/-- Witness for `complete_chat_missing_content` at a concrete call. -/
theorem complete_chat_missing_content_witness :
    complete_chat (Except.ok ()) LockOutcome.acquired [⟨"user", "hello"⟩] "gpt-4o"
      (fun _ => Except.ok ⟨[⟨none⟩]⟩) = CallOutcome.ok "" :=
  complete_chat_missing_content _ _ _ [] rfl

/-- C6: every message whose role string is neither "system" nor
"assistant" is translated with provider role user, and the translated
message list of the built chat request preserves input positions (so
also input order) and length. -/
theorem translate_role_fallback (ms : List Message) (model : String) (stream : Bool) :
    ((buildChatRequest ms model stream).messages.length = ms.length) ∧
    (∀ (i : Nat) (m : Message), ms[i]? = some m →
      m.role ≠ "system" → m.role ≠ "assistant" →
      (buildChatRequest ms model stream).messages[i]? =
        some ⟨ProviderRole.user, m.content⟩) := by
  constructor
  · simp [buildChatRequest, translateMessages]
  · intro i m hm hs ha
    simp [buildChatRequest, translateMessages, List.getElem?_map, hm,
      translateMessage, translateRole, hs, ha]

/-- Witness for `translate_role_fallback` at a concrete unrecognized
role. -/
theorem translate_role_fallback_witness :
    (buildChatRequest [⟨"robot", "hi"⟩] "gpt-4o" false).messages[0]? =
      some ⟨ProviderRole.user, "hi"⟩ :=
  (translate_role_fallback [⟨"robot", "hi"⟩] "gpt-4o" false).2 0 ⟨"robot", "hi"⟩ rfl
    (by decide) (by decide)

/-- C3 counterexample: `complete_chat` calls `.lock().unwrap()`, so a
poisoned lock panics the call instead of reporting a classified error —
refuting the claim that every exposed operation reports lock-acquisition
failure as a classified, non-fatal error. -/
theorem complete_chat_lock_panic_counterexample :
    complete_chat (Except.ok ()) (LockOutcome.poisoned "poisoned lock") [⟨"user", "hi"⟩]
      "gpt-4o" (fun _ => Except.ok ⟨[]⟩) = CallOutcome.panicked ∧
    isClassifiedError (complete_chat (Except.ok ()) (LockOutcome.poisoned "poisoned lock")
      [⟨"user", "hi"⟩] "gpt-4o" (fun _ => Except.ok ⟨[]⟩)) = false :=
  ⟨rfl, rfl⟩

/-- C3 amended: `process_completion_chunk`, `transcribe_audio` and
`text_to_speech` report a lock-acquisition failure to the caller as a
classified error; `complete_chat` instead unwraps the lock result and
panics on a poisoned lock. -/
theorem lock_failure_reporting (e : String) (ms : List Message) (model ref : String)
    (chatProvider : ChatRequest → Except String ChatCompletion)
    (streamProvider : ChatRequest → Except String (List (Except String StreamFrame)))
    (audio : List Nat) (topts sopts : Opts) (tresp : Except String String)
    (input : String) (sresp : Except String (List Nat)) :
    complete_chat (Except.ok ()) (LockOutcome.poisoned e) ms model chatProvider =
      CallOutcome.panicked ∧
    process_completion_chunk (Except.ok ()) (LockOutcome.poisoned e) ms model ref
      streamProvider = ⟨[], Except.error ("Failed to lock client: " ++ e)⟩ ∧
    transcribe_audio (Except.ok ()) (LockOutcome.poisoned e) audio topts tresp =
      CallOutcome.error ("Failed to lock client: " ++ e) ∧
    text_to_speech (Except.ok ()) (LockOutcome.poisoned e) input sopts sresp =
      CallOutcome.error ("Failed to lock client: " ++ e) :=
  ⟨rfl, rfl, rfl, rfl⟩

/-- C5: `transcribe_audio` rejects a buffer shorter than 10 bytes with a
validation error embedding the buffer length and the supplied option
keys; with at least 10 bytes, decodable options and a successful
provider call it returns the provider transcript unchanged. -/
theorem transcribe_audio_validation (audio : List Nat) (opts : Opts)
    (resp : Except String String) :
    (audio.length < 10 →
      transcribe_audio (Except.ok ()) LockOutcome.acquired audio opts resp =
        CallOutcome.error ("Audio binary too small. " ++ transcribeDebugInfo audio opts)) ∧
    (10 ≤ audio.length → ∀ p t, decodeTranscribeOpts opts = Except.ok p →
      resp = Except.ok t →
      transcribe_audio (Except.ok ()) LockOutcome.acquired audio opts resp =
        CallOutcome.ok t) := by
  constructor
  · intro h
    simp [transcribe_audio, h]
  · intro h p t hd ht
    simp [transcribe_audio, Nat.not_lt.mpr h, hd, ht]

/-- Witness for `transcribe_audio_validation`: a 9-byte buffer fails
validation, a 10-byte buffer with a stub success returns the stub
transcript. -/
theorem transcribe_audio_validation_witness :
    (transcribe_audio (Except.ok ()) LockOutcome.acquired (List.replicate 9 0) []
      (Except.ok "hello") =
      CallOutcome.error ("Audio binary too small. " ++
        transcribeDebugInfo (List.replicate 9 0) [])) ∧
    (transcribe_audio (Except.ok ()) LockOutcome.acquired (List.replicate 10 0) []
      (Except.ok "hello") = CallOutcome.ok "hello") :=
  ⟨(transcribe_audio_validation (List.replicate 9 0) [] (Except.ok "hello")).1 (by decide),
   (transcribe_audio_validation (List.replicate 10 0) [] (Except.ok "hello")).2 (by decide)
     ⟨"whisper-1", none, none, AudioResponseFormat.text, none⟩ "hello" rfl rfl⟩

/-- C8: the speech option decoder maps recognized model/voice/format
strings to their enumeration members and silently falls back to the
defaults tts-1 / alloy / mp3 for any unrecognized string or omitted key
(never an error for a string-valued option). -/
theorem speech_option_fallback (d : String) (s : String) :
    (decodeSpeechOpts d [("model", HostTerm.str s)] =
      Except.ok ⟨parseSpeechModel s, Voice.alloy, SpeechResponseFormat.mp3, none⟩) ∧
    (decodeSpeechOpts d [("voice", HostTerm.str s)] =
      Except.ok ⟨SpeechModel.tts1, parseVoice s, SpeechResponseFormat.mp3, none⟩) ∧
    (decodeSpeechOpts d [("response_format", HostTerm.str s)] =
      Except.ok ⟨SpeechModel.tts1, Voice.alloy, parseSpeechFormat s, none⟩) ∧
    (decodeSpeechOpts d [] =
      Except.ok ⟨SpeechModel.tts1, Voice.alloy, SpeechResponseFormat.mp3, none⟩) ∧
    (s ≠ "tts-1-hd" → parseSpeechModel s = SpeechModel.tts1) ∧
    (s ∉ (["echo", "fable", "onyx", "nova", "shimmer"] : List String) →
      parseVoice s = Voice.alloy) ∧
    (s ∉ (["opus", "aac", "flac"] : List String) →
      parseSpeechFormat s = SpeechResponseFormat.mp3) ∧
    parseSpeechModel "tts-1-hd" = SpeechModel.tts1hd ∧
    parseVoice "echo" = Voice.echo ∧ parseVoice "fable" = Voice.fable ∧
    parseVoice "onyx" = Voice.onyx ∧ parseVoice "nova" = Voice.nova ∧
    parseVoice "shimmer" = Voice.shimmer ∧
    parseSpeechFormat "opus" = SpeechResponseFormat.opus ∧
    parseSpeechFormat "aac" = SpeechResponseFormat.aac ∧
    parseSpeechFormat "flac" = SpeechResponseFormat.flac := by
  refine ⟨rfl, rfl, rfl, rfl, ?_, ?_, ?_, rfl, rfl, rfl, rfl, rfl, rfl, rfl, rfl, rfl⟩
  · intro h
    simp [parseSpeechModel, h]
  · intro h
    simp only [List.mem_cons, List.mem_singleton, not_or] at h
    obtain ⟨h1, h2, h3, h4, h5⟩ := h
    simp [parseVoice, h1, h2, h3, h4, h5]
  · intro h
    simp only [List.mem_cons, List.mem_singleton, not_or] at h
    obtain ⟨h1, h2, h3⟩ := h
    simp [parseSpeechFormat, h1, h2, h3]

/-- Witness for `speech_option_fallback` at a concrete unrecognized
string. -/
theorem speech_option_fallback_witness :
    decodeSpeechOpts "" [("voice", HostTerm.str "robotic")] =
      Except.ok ⟨SpeechModel.tts1, parseVoice "robotic", SpeechResponseFormat.mp3, none⟩ ∧
    parseSpeechModel "robotic" = SpeechModel.tts1 ∧
    parseVoice "robotic" = Voice.alloy ∧
    parseSpeechFormat "robotic" = SpeechResponseFormat.mp3 :=
  ⟨(speech_option_fallback "" "robotic").2.1,
   (speech_option_fallback "" "robotic").2.2.2.2.1 (by decide),
   (speech_option_fallback "" "robotic").2.2.2.2.2.1 (by decide),
   (speech_option_fallback "" "robotic").2.2.2.2.2.2.1 (by decide)⟩


/-- A required-string field is unchanged by prepending a binding of any
key to an atom, provided that key was not bound before: when the keys
coincide both sides give the default, otherwise the lookup is
untouched. -/
theorem decodeStrField_atom_cons (key deflt err k a : String) (opts : Opts)
    (h : getOpt k opts = none) :
    decodeStrField key deflt err ((k, HostTerm.atom a) :: opts) =
      decodeStrField key deflt err opts := by
  by_cases hk : k = key
  · subst hk
    simp [decodeStrField, getOpt, h]
  · simp [decodeStrField, getOpt, hk]

/-- An optional-string field is unchanged by prepending a binding of any
key to an atom, provided that key was not bound before. -/
theorem decodeOptStrField_atom_cons (key err k a : String) (opts : Opts)
    (h : getOpt k opts = none) :
    decodeOptStrField key err ((k, HostTerm.atom a) :: opts) =
      decodeOptStrField key err opts := by
  by_cases hk : k = key
  · subst hk
    simp [decodeOptStrField, getOpt, h]
  · simp [decodeOptStrField, getOpt, hk]

/-- An optional-float field is unchanged by prepending a binding of any
key to an atom, provided that key was not bound before. -/
theorem decodeFltField_atom_cons (key err k a : String) (opts : Opts)
    (h : getOpt k opts = none) :
    decodeFltField key err ((k, HostTerm.atom a) :: opts) =
      decodeFltField key err opts := by
  by_cases hk : k = key
  · subst hk
    simp [decodeFltField, getOpt, h]
  · simp [decodeFltField, getOpt, hk]

/-- C9: for every recognized option key of `transcribe_audio` and
`text_to_speech`, an option mapping binding the key to an atom (the
absent marker) decodes exactly as the mapping without the key, and the
empty mapping decodes to the documented defaults. -/
theorem absent_marker_eq_missing (opts : Opts) (a k d : String) :
    (k ∈ transcribeOptionKeys → getOpt k opts = none →
      decodeTranscribeOpts ((k, HostTerm.atom a) :: opts) = decodeTranscribeOpts opts) ∧
    (k ∈ speechOptionKeys → getOpt k opts = none →
      decodeSpeechOpts d ((k, HostTerm.atom a) :: opts) = decodeSpeechOpts d opts) ∧
    decodeTranscribeOpts [] =
      Except.ok ⟨"whisper-1", none, none, AudioResponseFormat.text, none⟩ ∧
    decodeSpeechOpts d [] =
      Except.ok ⟨SpeechModel.tts1, Voice.alloy, SpeechResponseFormat.mp3, none⟩ := by
  refine ⟨?_, ?_, rfl, rfl⟩
  · intro _ h
    simp only [decodeTranscribeOpts, decodeStrField_atom_cons _ _ _ _ _ _ h,
      decodeOptStrField_atom_cons _ _ _ _ _ h, decodeFltField_atom_cons _ _ _ _ _ h]
  · intro _ h
    simp only [decodeSpeechOpts, decodeStrField_atom_cons _ _ _ _ _ _ h,
      decodeFltField_atom_cons _ _ _ _ _ h]

/-- Witness for `absent_marker_eq_missing`: binding `voice` (speech) or
`temperature` (transcription) to an atom decodes like omitting the key. -/
theorem absent_marker_eq_missing_witness :
    (decodeSpeechOpts "" [("voice", HostTerm.atom "nil"), ("model", HostTerm.str "tts-1-hd")] =
      decodeSpeechOpts "" [("model", HostTerm.str "tts-1-hd")]) ∧
    (decodeTranscribeOpts
        [("temperature", HostTerm.atom "nil"), ("language", HostTerm.str "en")] =
      decodeTranscribeOpts [("language", HostTerm.str "en")]) :=
  ⟨(absent_marker_eq_missing [("model", HostTerm.str "tts-1-hd")] "nil" "voice" "").2.1
     (by decide) rfl,
   (absent_marker_eq_missing [("language", HostTerm.str "en")] "nil" "temperature" "").1
     (by decide) rfl⟩

/-- The notification sequence one `process_completion_chunk` call sends
when the runtime and lock succeed and the stream opens on the given
frame list. -/
def streamSent (ms : List Message) (model ref : String)
    (frames : List (Except String StreamFrame)) : List Notification :=
  (process_completion_chunk (Except.ok ()) LockOutcome.acquired ms model ref
    (fun _ => Except.ok frames)).sent

/-- Chunk notifications are not terminal: a mapped chunk list contains no
terminal notification. -/
theorem countP_terminal_map_chunk (cs : List String) (ref : String) :
    (cs.map (fun c => Notification.chunk c ref)).countP (fun n => isTerminal n) = 0 := by
  induction cs with
  | nil => rfl
  | cons c cs ih => simp [List.countP_cons, isTerminal, ih]

/-- Filtering the non-terminal notifications out of a mapped chunk list
returns it unchanged. -/
theorem filter_chunk_map_chunk (cs : List String) (ref : String) :
    (cs.map (fun c => Notification.chunk c ref)).filter (fun n => !(isTerminal n)) =
      cs.map (fun c => Notification.chunk c ref) := by
  induction cs with
  | nil => rfl
  | cons c cs ih => simp [List.filter_cons, isTerminal, ih]

/-- Filtering the terminal notifications out of a mapped chunk list
leaves nothing. -/
theorem filter_terminal_map_chunk (cs : List String) (ref : String) :
    (cs.map (fun c => Notification.chunk c ref)).filter (fun n => isTerminal n) = [] := by
  induction cs with
  | nil => rfl
  | cons c cs ih => simp [List.filter_cons, isTerminal, ih]

/-- C1 counterexample: a successfully opened stream of 12 content frames
with no finish signal hits the 10-frame cap with `is_done` still false,
so the call delivers 10 chunk notifications and no terminal notification
at all — refuting "exactly one terminal notification, never zero". -/
theorem stream_terminal_zero_counterexample :
    (streamSent [⟨"user", "hi"⟩] "gpt-4o" "ref1"
      (List.replicate 12 (Except.ok ⟨[⟨some "x", none⟩]⟩))).countP
        (fun n => isTerminal n) = 0 ∧
    (streamSent [⟨"user", "hi"⟩] "gpt-4o" "ref1"
      (List.replicate 12 (Except.ok ⟨[⟨some "x", none⟩]⟩))).length = 10 ∧
    (process_completion_chunk (Except.ok ()) LockOutcome.acquired [⟨"user", "hi"⟩]
      "gpt-4o" "ref1" (fun _ => Except.ok (List.replicate 12
        (Except.ok ⟨[⟨some "x", none⟩]⟩)))).ret = Except.ok () := by
  refine ⟨?_, ?_, ?_⟩ <;> rfl

/-- When the polling loop aborts with a stream error, the call sends
exactly one error notification. -/
theorem streamSent_of_loop_error (ms : List Message) (model ref : String)
    (frames : List (Except String StreamFrame)) (m : String)
    (hp : pollLoop 10 frames [] false = Except.error m) :
    streamSent ms model ref frames = [Notification.error m ref] := by
  simp [streamSent, process_completion_chunk, hp]

/-- When the polling loop completes with `is_done` set, the call sends
the collected chunks in order followed by one done notification. -/
theorem streamSent_of_loop_done (ms : List Message) (model ref : String)
    (frames : List (Except String StreamFrame)) (cs : List String)
    (hp : pollLoop 10 frames [] false = Except.ok (cs, true)) :
    streamSent ms model ref frames =
      cs.map (fun c => Notification.chunk c ref) ++ [Notification.done ref] := by
  simp [streamSent, process_completion_chunk, hp]

/-- When the polling loop hits the frame cap with `is_done` still false,
the call sends only the collected chunks — no terminal notification. -/
theorem streamSent_of_loop_capped (ms : List Message) (model ref : String)
    (frames : List (Except String StreamFrame)) (cs : List String)
    (hp : pollLoop 10 frames [] false = Except.ok (cs, false)) :
    streamSent ms model ref frames = cs.map (fun c => Notification.chunk c ref) := by
  simp [streamSent, process_completion_chunk, hp]

/-- C1 amended: on a successfully opened stream the call sends all chunk
notifications before any terminal notification and at most one terminal
notification (never both done and error); the terminal notification is
omitted exactly when the polling loop exhausts its 10-frame cap with the
stream neither ended nor finished (`is_done` false). -/
theorem stream_terminal_at_most_one (ms : List Message) (model ref : String)
    (frames : List (Except String StreamFrame)) :
    ((streamSent ms model ref frames).countP (fun n => isTerminal n) ≤ 1) ∧
    (streamSent ms model ref frames =
      (streamSent ms model ref frames).filter (fun n => !(isTerminal n)) ++
      (streamSent ms model ref frames).filter (fun n => isTerminal n)) ∧
    ((streamSent ms model ref frames).countP (fun n => isTerminal n) = 0 ↔
      ∃ cs, pollLoop 10 frames [] false = Except.ok (cs, false)) := by
  rcases hp : pollLoop 10 frames [] false with e | ⟨cs, d⟩
  · rw [streamSent_of_loop_error ms model ref frames e hp]
    refine ⟨by simp [List.countP_cons, isTerminal], by simp [List.filter_cons, isTerminal], ?_⟩
    constructor
    · intro h
      simp [List.countP_cons, isTerminal] at h
    · rintro ⟨cs, hcs⟩
      exact absurd hcs (by simp)
  · cases d
    · rw [streamSent_of_loop_capped ms model ref frames cs hp]
      refine ⟨?_, ?_, ?_⟩
      · rw [countP_terminal_map_chunk]
        exact Nat.zero_le 1
      · rw [filter_chunk_map_chunk, filter_terminal_map_chunk, List.append_nil]
      · rw [countP_terminal_map_chunk]
        exact ⟨fun _ => ⟨cs, rfl⟩, fun _ => rfl⟩
    · rw [streamSent_of_loop_done ms model ref frames cs hp]
      refine ⟨?_, ?_, ?_⟩
      · rw [List.countP_append, countP_terminal_map_chunk]
        simp [List.countP_cons, isTerminal]
      · rw [List.filter_append, List.filter_append, filter_chunk_map_chunk,
          filter_terminal_map_chunk]
        simp [List.filter_cons, isTerminal]
      · rw [List.countP_append, countP_terminal_map_chunk]
        constructor
        · intro h
          simp [List.countP_cons, isTerminal] at h
        · rintro ⟨cs2, hcs⟩
          exact absurd hcs (by simp)

/-- Every element of a mapped chunk list is a chunk notification:
counting non-terminal notifications gives the chunk count. -/
theorem countP_chunk_map_chunk (cs : List String) (ref : String) :
    (cs.map (fun c => Notification.chunk c ref)).countP (fun n => !(isTerminal n)) =
      cs.length := by
  induction cs with
  | nil => rfl
  | cons c cs ih => simp [List.countP_cons, isTerminal, ih]

/-- C2 counterexample: with a stream whose first frame carries the
fragment "a" and whose second frame is a transport error, the call sends
only the error notification — the collected fragment "a" is discarded,
refuting the claim that collected chunks are delivered before the
terminal error. -/
theorem stream_error_drops_collected_counterexample :
    streamSent [⟨"user", "hi"⟩] "gpt-4o" "ref1"
      [Except.ok ⟨[⟨some "a", none⟩]⟩, Except.error "boom"] =
      [Notification.error "Stream error: boom" "ref1"] ∧
    (streamSent [⟨"user", "hi"⟩] "gpt-4o" "ref1"
      [Except.ok ⟨[⟨some "a", none⟩]⟩, Except.error "boom"]).countP
        (fun n => !(isTerminal n)) = 0 :=
  ⟨rfl, rfl⟩

/-- C2 amended: when the stream yields a transport-level error within the
polling window, every chunk collected earlier in that batch is discarded:
the caller receives exactly the single terminal error notification and no
chunk notification at all. -/
theorem stream_error_discards_chunks (ms : List Message) (model ref : String)
    (frames : List (Except String StreamFrame)) (m : String)
    (hp : pollLoop 10 frames [] false = Except.error m) :
    streamSent ms model ref frames = [Notification.error m ref] ∧
    (streamSent ms model ref frames).countP (fun n => !(isTerminal n)) = 0 := by
  rw [streamSent_of_loop_error ms model ref frames m hp]
  exact ⟨rfl, by simp [List.countP_cons, isTerminal]⟩

/-- Witness for `stream_error_discards_chunks` at a concrete erroring
stream. -/
theorem stream_error_discards_chunks_witness :
    streamSent [⟨"user", "hola"⟩] "gpt-4o" "ref2"
      [Except.ok ⟨[⟨some "x", none⟩, ⟨some "y", none⟩]⟩, Except.error "reset"] =
      [Notification.error "Stream error: reset" "ref2"] ∧
    (streamSent [⟨"user", "hola"⟩] "gpt-4o" "ref2"
      [Except.ok ⟨[⟨some "x", none⟩, ⟨some "y", none⟩]⟩, Except.error "reset"]).countP
        (fun n => !(isTerminal n)) = 0 :=
  stream_error_discards_chunks _ _ _ _ "Stream error: reset" rfl

/-- The polling loop only examines the first `n` frames of the stream. -/
theorem pollLoop_take (n : Nat) (frames : List (Except String StreamFrame))
    (chunks : List String) (d : Bool) :
    pollLoop n frames chunks d = pollLoop n (frames.take n) chunks d := by
  induction n generalizing frames chunks d with
  | zero => simp [pollLoop]
  | succ n ih =>
    cases frames with
    | nil => simp [pollLoop]
    | cons hd tl =>
      cases hd with
      | error e => simp [pollLoop]
      | ok f =>
        simp only [pollLoop, List.take_succ_cons]
        exact ih tl _ _

/-- Whether a stream element contributes at most one content fragment
(transport errors contribute none). -/
def frameSmall : Except String StreamFrame → Bool
  | Except.ok f => decide ((frameContents f).length ≤ 1)
  | Except.error _ => true

/-- When every examined frame contributes at most one fragment, the
polling loop collects at most one chunk per remaining iteration. -/
theorem pollLoop_chunk_bound (n : Nat) (frames : List (Except String StreamFrame))
    (chunks : List String) (d : Bool) (cs : List String) (b : Bool)
    (hf : frames.all frameSmall = true)
    (hp : pollLoop n frames chunks d = Except.ok (cs, b)) :
    cs.length ≤ chunks.length + n := by
  induction n generalizing frames chunks d with
  | zero =>
    simp only [pollLoop, Except.ok.injEq, Prod.mk.injEq] at hp
    obtain ⟨rfl, rfl⟩ := hp
    omega
  | succ n ih =>
    cases frames with
    | nil =>
      simp only [pollLoop, Except.ok.injEq, Prod.mk.injEq] at hp
      obtain ⟨rfl, rfl⟩ := hp
      omega
    | cons hd tl =>
      cases hd with
      | error e => simp [pollLoop] at hp
      | ok f =>
        simp only [pollLoop] at hp
        simp only [List.all_cons, Bool.and_eq_true] at hf
        have hlen : (frameContents f).length ≤ 1 := by
          have h1 := hf.1
          simpa [frameSmall] using h1
        have hrec := ih tl (chunks ++ frameContents f) (d || frameFinished f) hf.2 hp
        rw [List.length_append] at hrec
        omega

/-- C7 counterexample: a single frame carrying 11 choices with delta
content yields 11 chunk notifications in one call — refuting "at most 10
chunk notifications" for arbitrary streams (the cap bounds frames, not
chunks). -/
theorem stream_chunk_over_cap_counterexample :
    (streamSent [⟨"user", "hi"⟩] "gpt-4o" "ref1"
      [Except.ok ⟨List.replicate 11 ⟨some "c", none⟩⟩]).countP
        (fun n => !(isTerminal n)) = 11 := rfl

/-- C7 amended: one call examines at most the first 10 frames of the
stream (the sent notifications only depend on them), and it delivers at
most 10 chunk notifications whenever every frame contributes at most one
content fragment — the cap bounds frames, and chunk notifications count
content-bearing choices of the examined frames. -/
theorem stream_frame_cap (ms : List Message) (model ref : String)
    (frames : List (Except String StreamFrame)) :
    (streamSent ms model ref frames = streamSent ms model ref (frames.take 10)) ∧
    (frames.all frameSmall = true →
      (streamSent ms model ref frames).countP (fun n => !(isTerminal n)) ≤ 10) := by
  constructor
  · simp only [streamSent, process_completion_chunk]
    rw [pollLoop_take 10 frames [] false]
  · intro hf
    rcases hp : pollLoop 10 frames [] false with e | ⟨cs, b⟩
    · rw [streamSent_of_loop_error ms model ref frames e hp]
      simp [List.countP_cons, isTerminal]
    · have hb := pollLoop_chunk_bound 10 frames [] false cs b hf hp
      simp only [List.length_nil, Nat.zero_add] at hb
      cases b
      · rw [streamSent_of_loop_capped ms model ref frames cs hp, countP_chunk_map_chunk]
        exact hb
      · rw [streamSent_of_loop_done ms model ref frames cs hp, List.countP_append,
          countP_chunk_map_chunk]
        simpa [List.countP_cons, isTerminal] using hb

/-- Witness for `stream_frame_cap` on a 12-frame stream of single-choice
content frames: the result equals that of the 10-frame prefix and at
most 10 chunks are delivered. -/
theorem stream_frame_cap_witness :
    (streamSent [⟨"user", "hi"⟩] "gpt-4o" "ref1"
        (List.replicate 12 (Except.ok ⟨[⟨some "x", none⟩]⟩)) =
      streamSent [⟨"user", "hi"⟩] "gpt-4o" "ref1"
        ((List.replicate 12 (Except.ok ⟨[⟨some "x", none⟩]⟩)).take 10)) ∧
    (streamSent [⟨"user", "hi"⟩] "gpt-4o" "ref1"
      (List.replicate 12 (Except.ok ⟨[⟨some "x", none⟩]⟩))).countP
        (fun n => !(isTerminal n)) ≤ 10 :=
  ⟨(stream_frame_cap [⟨"user", "hi"⟩] "gpt-4o" "ref1"
      (List.replicate 12 (Except.ok ⟨[⟨some "x", none⟩]⟩))).1,
   (stream_frame_cap [⟨"user", "hi"⟩] "gpt-4o" "ref1"
      (List.replicate 12 (Except.ok ⟨[⟨some "x", none⟩]⟩))).2 (by decide)⟩
